import Mathlib

/-!
Verification of the database connection lifecycle manager in
`packages/server/src/db.ts`: configuration resolution (`makeKnexConfig`),
connection supervision with retry (`waitForConnection`), the readiness
probe (`connectionCheck` / `latestMigration`), the error classifier
(`isNoSuchTableError`) and the schema reset operations (`dropTables` /
`truncateTables`).

The TypeScript code is embedded shallowly: JavaScript error values become
an explicit structure with optional `code` and `message` fields, the
underlying query engine (knex over sqlite3 or postgres) is modelled as an
explicit environment supplying, per attempt or per statement, the outcome
the engine would report, and the retry loop is run against a finite trace
of such outcomes together with the wall clock value observed at each
deadline check.
-/

/-- A JavaScript error value as observed by `db.ts`: an object carrying an
optional string `code` field and an optional string `message` field.  At
use sites the whole error value may itself be null or undefined, which is
represented by `Option ErrObj` with `none` for both. -/
structure ErrObj where
  code : Option String
  message : Option String
deriving DecidableEq

/-- Helper for `strIncludes`: does `needle` occur as a contiguous run
inside the character list? -/
def charsInclude (needle : List Char) : List Char → Bool
  | [] => needle.isEmpty
  | c :: rest => needle.isPrefixOf (c :: rest) || charsInclude needle rest

/-- JavaScript `hay.includes(needle)` on strings: substring containment. -/
def strIncludes (hay needle : String) : Bool :=
  charsInclude needle.toList hay.toList

/-- The literal substring tested by `isNoSuchTableError` for the embedded
engine (db.ts line 151). -/
def noSuchTableNeedle : String := "no such table: knex_migrations"

/-- Embedding of `isNoSuchTableError` (db.ts lines 145-155): a truthy
error classifies as a missing-table condition exactly when its `code` is
the postgres undefined-table code `42P01`, or its `message` is truthy and
contains `no such table: knex_migrations`; every other value, including a
null or undefined error, yields `false`. -/
def isNoSuchTableError (error : Option ErrObj) : Bool :=
  match error with
  | none => false
  | some e =>
    if e.code == some "42P01" then true
    else
      match e.message with
      | some m => if m != "" && strIncludes m noSuchTableNeedle then true else false
      | none => false

/-- The two relational backends `db.ts` supports, selected by
`DatabaseConfig.client` (`sqlite3` versus postgres). -/
inductive Backend
  | sqlite3
  | pg
deriving DecidableEq

/-- Model of the external engine error raised when a statement touches a
table that does not exist.  Postgres reports the stable error code
`42P01` (undefined_table), as recorded in the comment at db.ts line 147.
Sqlite reports no code but an error message containing
`no such table: <table name>`, naming the specific missing table; the
comment at db.ts line 150 records the instance of this convention for the
`knex_migrations` table. -/
def missingTableError : Backend → String → ErrObj
  | Backend.pg, _ => { code := some "42P01", message := some "relation does not exist" }
  | Backend.sqlite3, t => { code := none, message := some ("no such table: " ++ t) }

/-- Abstract database state for the reset operations: the set of tables
that currently exist, as a list of names.  Row contents are irrelevant to
the claims about drop and truncate. -/
structure DbState where
  tables : List String
deriving DecidableEq

/-- Engine model for `db.schema.dropTable(tableName)`: dropping an
existing table removes it, dropping a missing table raises the backend
missing-table error and leaves the state unchanged. -/
def dropOne (b : Backend) (t : String) (s : DbState) : Except ErrObj DbState :=
  if s.tables.contains t then Except.ok { tables := s.tables.erase t }
  else Except.error (missingTableError b t)

/-- Engine model for `db(tableName).truncate()`: truncating an existing
table succeeds (existence is unchanged; contents are not modelled),
truncating a missing table raises the backend missing-table error. -/
def truncateOne (b : Backend) (t : String) (s : DbState) : Except ErrObj DbState :=
  if s.tables.contains t then Except.ok s
  else Except.error (missingTableError b t)

/-- The shared per-table loop of `dropTables` (db.ts lines 123-132) and
`truncateTables` (lines 134-143): attempt the statement on each table in
order; on failure, an error classified by `isNoSuchTableError` is
swallowed (`continue`), any other error is re-raised immediately,
aborting the remaining iteration. -/
def resetLoopS (attempt : String → DbState → Except ErrObj DbState) :
    List String → DbState → Except ErrObj DbState
  | [], s => Except.ok s
  | t :: ts, s =>
    match attempt t s with
    | Except.ok s2 => resetLoopS attempt ts s2
    | Except.error e =>
      if isNoSuchTableError (some e) then resetLoopS attempt ts s
      else Except.error e

/-- The keys of the `databaseSchema` object (db.ts lines 338-439), in
declaration order.  Column definitions are not interpreted by the
connection lifecycle code and are omitted. -/
def databaseSchemaTables : List String :=
  ["users", "sessions", "permissions", "files", "changes", "api_clients",
   "notifications", "shares", "share_users", "joplin_file_contents"]

/-- Embedding of `allTableNames` (db.ts lines 116-121): the schema table
names followed by the two migration bookkeeping tables. -/
def allTableNames : List String :=
  databaseSchemaTables ++ ["knex_migrations", "knex_migrations_lock"]

/-- Embedding of `dropTables` (db.ts lines 123-132) against the engine
model for backend `b`. -/
def dropTables (b : Backend) (s : DbState) : Except ErrObj DbState :=
  resetLoopS (dropOne b) allTableNames s

/-- Embedding of `truncateTables` (db.ts lines 134-143) against the
engine model for backend `b`. -/
def truncateTables (b : Backend) (s : DbState) : Except ErrObj DbState :=
  resetLoopS (truncateOne b) allTableNames s

/-- A row of the `knex_migrations` bookkeeping table as read by
`latestMigration`: a migration name and an integer id. -/
structure MigrationRecord where
  name : String
  id : Nat
deriving DecidableEq

/-- Model of the knex query
`db('knex_migrations').select('name').orderBy('id', 'asc').first()`
over a concrete list of rows: the first row in ascending-id order, that
is, a row with minimal id (the earliest such row on ties). -/
def firstByIdAsc : List MigrationRecord → Option MigrationRecord
  | [] => none
  | r :: rs =>
    match firstByIdAsc rs with
    | none => some r
    | some m => if r.id ≤ m.id then some r else some m

/-- Environment describing how the engine answers the bookkeeping-table
query issued by `latestMigration`: either the table exists and holds the
given rows, or the table is missing (the engine raises its backend
missing-table error for `knex_migrations`), or the query fails with an
arbitrary other error (connectivity failure, permission error, ...). -/
inductive QueryEnv
  | rows (rs : List MigrationRecord)
  | noTable (b : Backend)
  | failure (e : ErrObj)

/-- The raw outcome of the bookkeeping-table query before
`latestMigration` interprets it: on success, the `name` projection of
the first row in ascending-id order (or null when the table is empty). -/
def runMigrationQuery : QueryEnv → Except ErrObj (Option String)
  | QueryEnv.rows rs => Except.ok ((firstByIdAsc rs).map MigrationRecord.name)
  | QueryEnv.noTable b => Except.error (missingTableError b "knex_migrations")
  | QueryEnv.failure e => Except.error e

/-- Embedding of `latestMigration` (db.ts lines 157-170): return the
query result; if the query fails with an error classified by
`isNoSuchTableError`, return null (database never initialized);
otherwise re-raise the error unchanged. -/
def latestMigration (env : QueryEnv) : Except ErrObj (Option String) :=
  match runMigrationQuery env with
  | Except.ok r => Except.ok r
  | Except.error e =>
    if isNoSuchTableError (some e) then Except.ok none
    else Except.error e

/-- Embedding of `ConnectionCheckResult` (db.ts lines 43-48).  The
opaque `DbConnection` handle is modelled by a numeric id; the nullable
fields become options, with `none` for null. -/
structure ConnectionCheckResult where
  isCreated : Bool
  error : Option ErrObj
  latestMigration : Option String
  connection : Option Nat
deriving DecidableEq

/-- Embedding of `connectionCheck` (db.ts lines 172-189) for connection
handle `db` against query environment `env`: on a successful (or
absorbed missing-table) probe, report the migration name, `isCreated`
true exactly when a record was found (`!!result`), no error and the
original connection; on a probe failure, report the error with a null
connection. -/
def connectionCheck (db : Nat) (env : QueryEnv) : ConnectionCheckResult :=
  match latestMigration env with
  | Except.ok result =>
    { latestMigration := result
      isCreated := result.isSome
      error := none
      connection := some db }
  | Except.error e =>
    { latestMigration := none
      isCreated := false
      error := some e
      connection := none }

/-- The hardcoded deadline of `waitForConnection` (db.ts line 76),
in milliseconds. -/
def connectionTimeout : Nat := 30000

/-- The fixed pause between attempts (db.ts line 96), in milliseconds. -/
def retryPauseMs : Nat := 1000

/-- Environment for one iteration of the `waitForConnection` loop:
either `connectDb` itself throws, or a connection is opened and the
probe `connectionCheck` runs against the given query environment. -/
inductive AttemptEnv
  | noConnect (e : ErrObj)
  | connected (q : QueryEnv)

/-- The error an attempt observes, if any: the thrown connect error, or
the `error` field of the probe result (which `waitForConnection`
re-throws when truthy).  `none` means the attempt returns the check. -/
def attemptError : AttemptEnv → Option ErrObj
  | AttemptEnv.noConnect e => some e
  | AttemptEnv.connected q =>
    match latestMigration q with
    | Except.ok _ => none
    | Except.error e => some e

/-- JavaScript string interpolation of `e.message` as performed by the
template literal at db.ts line 93: a missing message field prints as
the string `undefined`. -/
def jsMessage (e : ErrObj) : String :=
  match e.message with
  | some m => m
  | none => "undefined"

/-- The fatal error message built at db.ts line 93 from the last
observed failure. -/
def timeoutMessage (lastMsg : String) : String :=
  "Timeout trying to connect to database. Last error was: " ++ lastMsg

/-- Embedding of the `while (true)` loop of `waitForConnection`
(db.ts lines 80-97), run against a finite trace.  Each trace entry pairs
the iteration environment with the value `Date.now()` would return at
that iteration's deadline check (`Date.now() - startTime > timeout`).
`ctr` is the id the next opened connection receives; `opened` collects
connection handles that were opened by failed attempts and never passed
to `disconnectDb` — the loop body contains no `disconnectDb` call, so
this list only grows.  The result is `none` when the trace is exhausted
with the loop still running, or `some` of either the returned check or
the thrown fatal timeout message, paired with the leaked handles. -/
def waitLoop (startTime : Nat) (ctr : Nat) (opened : List Nat) :
    List (AttemptEnv × Nat) →
      Option (Except String ConnectionCheckResult) × List Nat
  | [] => (none, opened)
  | (step, now) :: rest =>
    match step with
    | AttemptEnv.noConnect e =>
      if now - startTime > connectionTimeout then
        (some (Except.error (timeoutMessage (jsMessage e))), opened)
      else waitLoop startTime ctr opened rest
    | AttemptEnv.connected q =>
      match (connectionCheck ctr q).error with
      | none => (some (Except.ok (connectionCheck ctr q)), opened)
      | some e =>
        if now - startTime > connectionTimeout then
          (some (Except.error (timeoutMessage (jsMessage e))), ctr :: opened)
        else waitLoop startTime (ctr + 1) (ctr :: opened) rest

/-- Embedding of `waitForConnection` (db.ts lines 75-98): record the
start time, then loop with connection ids starting at 0 and no
connection opened yet. -/
def waitForConnection (startTime : Nat) (trace : List (AttemptEnv × Nat)) :
    Option (Except String ConnectionCheckResult) × List Nat :=
  waitLoop startTime 0 [] trace

/-- The fields of `DatabaseConfig` (imported by db.ts from
`./utils/types`) that `makeKnexConfig` reads: `client`, `name`, `host`,
`port`, `user`, `password` and `asyncStackTraces`.  The optional fields
are options, `none` standing for undefined. -/
structure DatabaseConfig where
  client : String
  name : String
  host : Option String
  port : Option Nat
  user : Option String
  password : Option String
  asyncStackTraces : Option Bool
deriving DecidableEq

/-- Embedding of `DbConfigConnection` (db.ts lines 27-34): every field
optional, `none` for a field never assigned. -/
structure DbConfigConnection where
  host : Option String := none
  port : Option Nat := none
  user : Option String := none
  database : Option String := none
  filename : Option String := none
  password : Option String := none
deriving DecidableEq

/-- Embedding of `KnexDatabaseConfig` (db.ts lines 36-41). -/
structure KnexDatabaseConfig where
  client : String
  connection : DbConfigConnection
  useNullAsDefault : Option Bool
  asyncStackTraces : Option Bool
deriving DecidableEq

/-- The fixed storage directory `sqliteDbDir` (db.ts line 20), computed
once per process as `pathUtils.dirname(__dirname)`; its concrete value
is an arbitrary constant here, fixed for the whole development. -/
def sqliteDbDir : String := "/packages/server"

/-- Embedding of `sqliteFilePath` (db.ts lines 50-52). -/
def sqliteFilePath (name : String) : String :=
  sqliteDbDir ++ "/db-" ++ name ++ ".sqlite"

/-- Embedding of `makeKnexConfig` (db.ts lines 54-73): for the sqlite3
client only `filename` is set, computed by `sqliteFilePath` from the
logical name; for any other client the name, host, port, user and
password are copied verbatim into the connection descriptor. -/
def makeKnexConfig (dbConfig : DatabaseConfig) : KnexDatabaseConfig :=
  let connection : DbConfigConnection :=
    if dbConfig.client = "sqlite3" then
      { filename := some (sqliteFilePath dbConfig.name) }
    else
      { database := some dbConfig.name
        host := dbConfig.host
        port := dbConfig.port
        user := dbConfig.user
        password := dbConfig.password }
  { client := dbConfig.client
    useNullAsDefault := some (decide (dbConfig.client = "sqlite3"))
    asyncStackTraces := dbConfig.asyncStackTraces
    connection := connection }

/-- An empty message cannot contain the nonempty needle. -/
lemma strIncludes_empty_needle : strIncludes "" noSuchTableNeedle = false := by
  decide

/-- Characterization of the classifier on a non-null error value. -/
lemma isNoSuchTableError_some_iff (o : ErrObj) :
    isNoSuchTableError (some o) = true ↔
      o.code = some "42P01" ∨
        ∃ m, o.message = some m ∧ strIncludes m noSuchTableNeedle = true := by
  by_cases hc : o.code = some "42P01"
  · simp [isNoSuchTableError, hc]
  · have hcb : (o.code == some "42P01") = false := by
      simp [hc]
    cases hm : o.message with
    | none => simp [isNoSuchTableError, hc, hcb, hm]
    | some m =>
      by_cases hme : m = ""
      · subst hme
        simp [isNoSuchTableError, hc, hcb, hm, strIncludes_empty_needle]
      · by_cases hinc : strIncludes m noSuchTableNeedle = true
        · simp [isNoSuchTableError, hc, hcb, hm, hme, hinc]
        · simp [isNoSuchTableError, hc, hcb, hm, hme, hinc]

/-- C3: the classifier returns `TableNotFound` (true) exactly when the
error value carries the postgres undefined-table code `42P01` or its
message contains the `no such table: knex_migrations` substring; every
other error value classifies as `Other` (false) and is propagated
unchanged to the caller, shown here for `latestMigration`, which
re-raises the identical error object. -/
theorem isNoSuchTableError_spec :
    (∀ e : Option ErrObj,
      isNoSuchTableError e = true ↔
        ∃ o, e = some o ∧
          (o.code = some "42P01" ∨
            ∃ m, o.message = some m ∧ strIncludes m noSuchTableNeedle = true)) ∧
    (∀ o : ErrObj, isNoSuchTableError (some o) = false →
      latestMigration (QueryEnv.failure o) = Except.error o) := by
  constructor
  · intro e
    cases e with
    | none => simp [isNoSuchTableError]
    | some o => simp [isNoSuchTableError_some_iff]
  · intro o h
    simp [latestMigration, runMigrationQuery, h]

/-- Witness for C3 at concrete inputs: the postgres code classifies as
`TableNotFound`, and an unrelated connectivity error is re-raised
unchanged by `latestMigration`. -/
theorem isNoSuchTableError_spec_witness :
    isNoSuchTableError (some ⟨some "42P01", none⟩) = true ∧
    latestMigration (QueryEnv.failure ⟨none, some "ECONNREFUSED"⟩) =
      Except.error ⟨none, some "ECONNREFUSED"⟩ :=
  ⟨(isNoSuchTableError_spec.1 (some ⟨some "42P01", none⟩)).mpr
      ⟨⟨some "42P01", none⟩, rfl, Or.inl rfl⟩,
    isNoSuchTableError_spec.2 ⟨none, some "ECONNREFUSED"⟩ (by decide)⟩

/-- C10: the classifier is total on arbitrary error values: a null or
undefined error value yields false, and so does any error object whose
code is not the recognized one and whose message (if any) does not
contain the bookkeeping-table substring.  Being a Lean function, it
cannot itself raise. -/
theorem isNoSuchTableError_total :
    isNoSuchTableError none = false ∧
    (∀ o : ErrObj, o.code ≠ some "42P01" →
      (∀ m, o.message = some m → strIncludes m noSuchTableNeedle = false) →
      isNoSuchTableError (some o) = false) := by
  refine ⟨rfl, ?_⟩
  intro o hc hm
  cases h : isNoSuchTableError (some o) with
  | false => rfl
  | true =>
    rcases (isNoSuchTableError_some_iff o).mp h with h1 | ⟨m, hm2, hinc⟩
    · exact absurd h1 hc
    · rw [hm m hm2] at hinc
      exact absurd hinc (by simp)

/-- Witness for C10 at a concrete input: an error object with neither a
code nor a message classifies as false. -/
theorem isNoSuchTableError_total_witness :
    isNoSuchTableError (some ⟨none, none⟩) = false :=
  isNoSuchTableError_total.2 ⟨none, none⟩ (by decide)
    (by intro m h; exact Option.noConfusion h)

/-- C2: the readiness probe `connectionCheck`: a query failure whose
error classifies as a missing-table condition yields `isCreated` false
with a null error (not a failure); a successful query yields `isCreated`
true exactly when a record was found, reporting that record's name; any
other query failure is reported as the probe's error. -/
theorem connectionCheck_spec :
    (∀ (db : Nat) (env : QueryEnv) (e : ErrObj),
      runMigrationQuery env = Except.error e →
      isNoSuchTableError (some e) = true →
      connectionCheck db env =
        { isCreated := false, error := none, latestMigration := none,
          connection := some db }) ∧
    (∀ (db : Nat) (rs : List MigrationRecord),
      connectionCheck db (QueryEnv.rows rs) =
        { isCreated := ((firstByIdAsc rs).map MigrationRecord.name).isSome
          error := none
          latestMigration := (firstByIdAsc rs).map MigrationRecord.name
          connection := some db }) ∧
    (∀ (db : Nat) (env : QueryEnv) (e : ErrObj),
      runMigrationQuery env = Except.error e →
      isNoSuchTableError (some e) = false →
      connectionCheck db env =
        { isCreated := false, error := some e, latestMigration := none,
          connection := none }) := by
  refine ⟨?_, ?_, ?_⟩
  · intro db env e hq hcl
    simp [connectionCheck, latestMigration, hq, hcl]
  · intro db rs
    rfl
  · intro db env e hq hcl
    simp [connectionCheck, latestMigration, hq, hcl]

/-- Witness for C2 at a concrete input: probing a fresh sqlite database
with no bookkeeping table reports not-created with a null error. -/
theorem connectionCheck_spec_witness :
    connectionCheck 7 (QueryEnv.noTable Backend.sqlite3) =
      { isCreated := false, error := none, latestMigration := none,
        connection := some 7 } :=
  connectionCheck_spec.1 7 (QueryEnv.noTable Backend.sqlite3)
    (missingTableError Backend.sqlite3 "knex_migrations") rfl (by decide)

/-- C8: every result the probe produces has a non-null connection field
exactly when its error field is null. -/
theorem connectionCheck_connection_iff :
    ∀ (db : Nat) (env : QueryEnv),
      (connectionCheck db env).connection ≠ none ↔
        (connectionCheck db env).error = none := by
  intro db env
  cases h : latestMigration env <;> simp [connectionCheck, h]

/-- C6: inside the shared per-table reset loop of `dropTables` and
`truncateTables`, a failed attempt whose error classifies as a
missing-table condition is swallowed and iteration continues with the
remaining tables from the unchanged state, while a failed attempt with
any other classification re-raises that error immediately, so no
further table is processed whatever the rest of the catalog holds. -/
theorem resetLoop_error_policy :
    ∀ (attempt : String → DbState → Except ErrObj DbState) (t : String)
      (ts : List String) (s : DbState) (e : ErrObj),
      attempt t s = Except.error e →
      (isNoSuchTableError (some e) = true →
        resetLoopS attempt (t :: ts) s = resetLoopS attempt ts s) ∧
      (isNoSuchTableError (some e) = false →
        resetLoopS attempt (t :: ts) s = Except.error e) := by
  intro attempt t ts s e h
  constructor <;> intro h2 <;> simp [resetLoopS, h, h2]

/-- Witness for C6 at a concrete input: on an empty sqlite database the
drop of `users` fails with an error not classified as the bookkeeping
missing-table condition, and the loop aborts with that error even
though `sessions` is still pending. -/
theorem resetLoop_error_policy_witness :
    resetLoopS (dropOne Backend.sqlite3) ("users" :: ["sessions"]) ⟨[]⟩ =
      Except.error (missingTableError Backend.sqlite3 "users") :=
  (resetLoop_error_policy (dropOne Backend.sqlite3) "users" ["sessions"] ⟨[]⟩
      (missingTableError Backend.sqlite3 "users") rfl).2 (by decide)

/-- Inversion for the modelled bookkeeping query: a `none` result only
arises from an empty row list. -/
lemma firstByIdAsc_eq_none :
    ∀ rs : List MigrationRecord, firstByIdAsc rs = none → rs = [] := by
  intro rs h
  cases rs with
  | nil => rfl
  | cons a t =>
    cases hft : firstByIdAsc t with
    | none =>
      simp only [firstByIdAsc, hft] at h
      exact Option.noConfusion h
    | some m =>
      simp only [firstByIdAsc, hft] at h
      split at h <;> exact Option.noConfusion h

/-- The row selected by the modelled bookkeeping query is a row of the
table, and its id is minimal among all rows. -/
lemma firstByIdAsc_min :
    ∀ (rs : List MigrationRecord) (r : MigrationRecord),
      firstByIdAsc rs = some r → r ∈ rs ∧ ∀ q ∈ rs, r.id ≤ q.id := by
  intro rs
  induction rs with
  | nil => intro r h; exact Option.noConfusion h
  | cons a t ih =>
    intro r h
    cases hft : firstByIdAsc t with
    | none =>
      have ht : t = [] := firstByIdAsc_eq_none t hft
      subst ht
      simp only [firstByIdAsc] at h
      injection h with h
      subst h
      exact ⟨by simp, by intro q hq; simp at hq; subst hq; exact le_refl _⟩
    | some m =>
      have hm := ih m hft
      simp only [firstByIdAsc, hft] at h
      by_cases hle : a.id ≤ m.id
      · rw [if_pos hle] at h
        injection h with h
        subst h
        refine ⟨List.mem_cons_self a t, ?_⟩
        intro q hq
        rcases List.mem_cons.mp hq with hq1 | hq2
        · subst hq1; exact le_refl _
        · exact le_trans hle (hm.2 q hq2)
      · rw [if_neg hle] at h
        injection h with h
        subst h
        refine ⟨List.mem_cons_of_mem a hm.1, ?_⟩
        intro q hq
        rcases List.mem_cons.mp hq with hq1 | hq2
        · subst hq1; omega
        · exact hm.2 q hq2

/-- C7: on a non-empty bookkeeping table, `latestMigration` succeeds and
reports the name of a record whose id is the smallest of all records:
the first row in ascending-id order. -/
theorem latestMigration_min_id :
    ∀ rs : List MigrationRecord, rs ≠ [] →
      ∃ r, r ∈ rs ∧ (∀ q ∈ rs, r.id ≤ q.id) ∧
        latestMigration (QueryEnv.rows rs) = Except.ok (some r.name) := by
  intro rs h
  cases hf : firstByIdAsc rs with
  | none => exact absurd (firstByIdAsc_eq_none rs hf) h
  | some r =>
    obtain ⟨hmem, hmin⟩ := firstByIdAsc_min rs r hf
    exact ⟨r, hmem, hmin, by simp [latestMigration, runMigrationQuery, hf]⟩

/-- Witness for C7 at a concrete input: with two records the one with
the smaller id is reported even though it sits later in the list. -/
theorem latestMigration_min_id_witness :
    ([⟨"0002_b", 2⟩, ⟨"0001_init", 1⟩] : List MigrationRecord) ≠ [] ∧
    ∃ r, r ∈ ([⟨"0002_b", 2⟩, ⟨"0001_init", 1⟩] : List MigrationRecord) ∧
      (∀ q ∈ ([⟨"0002_b", 2⟩, ⟨"0001_init", 1⟩] : List MigrationRecord),
        r.id ≤ q.id) ∧
      latestMigration (QueryEnv.rows [⟨"0002_b", 2⟩, ⟨"0001_init", 1⟩]) =
        Except.ok (some r.name) :=
  ⟨by decide, latestMigration_min_id [⟨"0002_b", 2⟩, ⟨"0001_init", 1⟩] (by decide)⟩

/-- Classified-error loops never raise: if every failure of the
per-table statement classifies as a missing-table condition, the reset
loop always completes. -/
lemma resetLoopS_ok_of_classified :
    ∀ (attempt : String → DbState → Except ErrObj DbState),
      (∀ t s e, attempt t s = Except.error e →
        isNoSuchTableError (some e) = true) →
      ∀ (ts : List String) (s : DbState),
        ∃ s2, resetLoopS attempt ts s = Except.ok s2 := by
  intro attempt hcl ts
  induction ts with
  | nil => intro s; exact ⟨s, rfl⟩
  | cons t ts ih =>
    intro s
    cases ha : attempt t s with
    | ok s1 =>
      obtain ⟨s2, h2⟩ := ih s1
      exact ⟨s2, by simp [resetLoopS, ha, h2]⟩
    | error e =>
      obtain ⟨s2, h2⟩ := ih s
      exact ⟨s2, by simp [resetLoopS, ha, hcl t s e ha, h2]⟩

/-- Every failure of a postgres drop statement carries code `42P01` and
therefore classifies as a missing-table condition. -/
lemma dropOne_pg_classified :
    ∀ t s e, dropOne Backend.pg t s = Except.error e →
      isNoSuchTableError (some e) = true := by
  intro t s e h
  unfold dropOne at h
  split at h
  · exact Except.noConfusion h
  · injection h with h
    subst h
    rfl

/-- Every failure of a postgres truncate statement carries code `42P01`
and therefore classifies as a missing-table condition. -/
lemma truncateOne_pg_classified :
    ∀ t s e, truncateOne Backend.pg t s = Except.error e →
      isNoSuchTableError (some e) = true := by
  intro t s e h
  unfold truncateOne at h
  split at h
  · exact Except.noConfusion h
  · injection h with h
    subst h
    rfl

/-- Counterexample for C4: on the embedded backend the claim fails.
Starting from a database holding every catalog table, the first
`dropTables` succeeds and removes them all, and the second call raises:
its first attempt fails with `no such table: users`, which does not
contain the bookkeeping-table substring the classifier looks for, so
the error is re-raised instead of absorbed. -/
theorem dropTables_sqlite_not_idempotent :
    Except.bind (dropTables Backend.sqlite3 ⟨allTableNames⟩)
        (fun s2 => dropTables Backend.sqlite3 s2) =
      Except.error ⟨none, some "no such table: users"⟩ := by
  rfl

/-- C4 amended: calling `dropTables` twice in a row, or
`truncateTables` twice in a row, never raises on the client-server
backend, whose missing-table failures always carry the recognized code
`42P01`; on the embedded backend the property fails (see the
counterexample), because sqlite names the specific missing table in its
message and only the bookkeeping-table message is absorbed. -/
theorem dropTables_truncateTables_pg_idempotent :
    ∀ s : DbState,
      ∃ s1 s2 t1 t2,
        dropTables Backend.pg s = Except.ok s1 ∧
        dropTables Backend.pg s1 = Except.ok s2 ∧
        truncateTables Backend.pg s = Except.ok t1 ∧
        truncateTables Backend.pg t1 = Except.ok t2 := by
  intro s
  obtain ⟨s1, h1⟩ := resetLoopS_ok_of_classified (dropOne Backend.pg)
    dropOne_pg_classified allTableNames s
  obtain ⟨s2, h2⟩ := resetLoopS_ok_of_classified (dropOne Backend.pg)
    dropOne_pg_classified allTableNames s1
  obtain ⟨t1, h3⟩ := resetLoopS_ok_of_classified (truncateOne Backend.pg)
    truncateOne_pg_classified allTableNames s
  obtain ⟨t2, h4⟩ := resetLoopS_ok_of_classified (truncateOne Backend.pg)
    truncateOne_pg_classified allTableNames t1
  exact ⟨s1, s2, t1, t2, h1, h2, h3, h4⟩

/-- C9: `makeKnexConfig` is a pure deterministic function: identical
configurations give identical descriptors; for the sqlite3 client the
connection descriptor holds only a file path computed from the logical
database name and the fixed storage directory; for any other client the
host, port, user, password and database name are copied verbatim from
the configuration. -/
theorem makeKnexConfig_deterministic :
    (∀ c1 c2 : DatabaseConfig, c1 = c2 → makeKnexConfig c1 = makeKnexConfig c2) ∧
    (∀ c : DatabaseConfig, c.client = "sqlite3" →
      (makeKnexConfig c).connection =
        { filename := some (sqliteDbDir ++ "/db-" ++ c.name ++ ".sqlite") }) ∧
    (∀ c : DatabaseConfig, c.client ≠ "sqlite3" →
      (makeKnexConfig c).connection =
        { database := some c.name, host := c.host, port := c.port,
          user := c.user, password := c.password }) := by
  refine ⟨?_, ?_, ?_⟩
  · intro c1 c2 h
    rw [h]
  · intro c h
    simp [makeKnexConfig, sqliteFilePath, h]
  · intro c h
    simp [makeKnexConfig, h]

/-- Witness for C9 at concrete configurations: the sqlite3 descriptor
is the fixed directory plus the logical name, and the postgres
descriptor copies every credential field. -/
theorem makeKnexConfig_deterministic_witness :
    (makeKnexConfig ⟨"sqlite3", "joplin", none, none, none, none, none⟩).connection =
      { filename := some (sqliteDbDir ++ "/db-" ++ "joplin" ++ ".sqlite") } ∧
    (makeKnexConfig ⟨"pg", "joplin", some "localhost", some 5432, some "u1",
        some "p1", some true⟩).connection =
      { database := some "joplin", host := some "localhost", port := some 5432,
        user := some "u1", password := some "p1" } :=
  ⟨makeKnexConfig_deterministic.2.1
      ⟨"sqlite3", "joplin", none, none, none, none, none⟩ rfl,
    makeKnexConfig_deterministic.2.2
      ⟨"pg", "joplin", some "localhost", some 5432, some "u1", some "p1", some true⟩
      (by decide)⟩

/-- The error field of the probe result is exactly the attempt error of
the corresponding connected attempt, independent of the handle id. -/
lemma connectionCheck_error_eq (db : Nat) (q : QueryEnv) :
    (connectionCheck db q).error = attemptError (AttemptEnv.connected q) := by
  cases h : latestMigration q <;> simp [connectionCheck, attemptError, h]

/-- C1 amended: whenever the retry loop raises, the trace decomposes
into a prefix of failing attempts, each observed while the elapsed time
was still within the deadline, followed by one failing attempt observed
past the deadline; the fatal message embeds the message of that last
observed failure.  In particular the loop never raises before the
deadline.  (The original claim's second half fails: a successful
attempt returns normally even past the deadline, see the
counterexample.) -/
theorem waitForConnection_raise_characterization :
    ∀ (trace : List (AttemptEnv × Nat)) (startTime ctr : Nat)
      (opened : List Nat) (m : String),
      (waitLoop startTime ctr opened trace).1 = some (Except.error m) →
      ∃ pre step now rest e,
        trace = pre ++ (step, now) :: rest ∧
        attemptError step = some e ∧
        now - startTime > connectionTimeout ∧
        m = timeoutMessage (jsMessage e) ∧
        ∀ p ∈ pre, (∃ e2, attemptError p.1 = some e2) ∧
          p.2 - startTime ≤ connectionTimeout := by
  intro trace
  induction trace with
  | nil =>
    intro startTime ctr opened m h
    simp [waitLoop] at h
  | cons hd tl ih =>
    intro startTime ctr opened m h
    obtain ⟨step, now⟩ := hd
    cases step with
    | noConnect e =>
      by_cases hnow : now - startTime > connectionTimeout
      · simp only [waitLoop, if_pos hnow] at h
        have hm : m = timeoutMessage (jsMessage e) := by
          simp at h
          exact h.symm
        exact ⟨[], AttemptEnv.noConnect e, now, tl, e, by simp, rfl, hnow, hm,
          by simp⟩
      · simp only [waitLoop, if_neg hnow] at h
        obtain ⟨pre, step2, now2, rest, e2, htr, hae, hn2, hm, hpre⟩ :=
          ih startTime ctr opened m h
        refine ⟨(AttemptEnv.noConnect e, now) :: pre, step2, now2, rest, e2,
          by simp [htr], hae, hn2, hm, ?_⟩
        intro p hp
        rcases List.mem_cons.mp hp with hp1 | hp2
        · subst hp1
          exact ⟨⟨e, rfl⟩, le_of_not_lt hnow⟩
        · exact hpre p hp2
    | connected q =>
      cases hce : (connectionCheck ctr q).error with
      | none =>
        simp only [waitLoop, hce] at h
        simp at h
      | some e =>
        have hae : attemptError (AttemptEnv.connected q) = some e := by
          rw [← connectionCheck_error_eq ctr q]
          exact hce
        by_cases hnow : now - startTime > connectionTimeout
        · simp only [waitLoop, hce, if_pos hnow] at h
          have hm : m = timeoutMessage (jsMessage e) := by
            simp at h
            exact h.symm
          exact ⟨[], AttemptEnv.connected q, now, tl, e, by simp, hae, hnow, hm,
            by simp⟩
        · simp only [waitLoop, hce, if_neg hnow] at h
          obtain ⟨pre, step2, now2, rest, e2, htr, hae2, hn2, hm, hpre⟩ :=
            ih startTime (ctr + 1) (ctr :: opened) m h
          refine ⟨(AttemptEnv.connected q, now) :: pre, step2, now2, rest, e2,
            by simp [htr], hae2, hn2, hm, ?_⟩
          intro p hp
          rcases List.mem_cons.mp hp with hp1 | hp2
          · subst hp1
            exact ⟨⟨e, hae⟩, le_of_not_lt hnow⟩
          · exact hpre p hp2

/-- Witness for C1 at a concrete input: a single connect failure
observed at 31000 ms raises the fatal message embedding that failure. -/
theorem waitForConnection_raise_witness :
    ∃ pre step now rest e,
      ([(AttemptEnv.noConnect ⟨none, some "ECONNREFUSED"⟩, 31000)] :
          List (AttemptEnv × Nat)) = pre ++ (step, now) :: rest ∧
      attemptError step = some e ∧
      now - 0 > connectionTimeout ∧
      timeoutMessage "ECONNREFUSED" = timeoutMessage (jsMessage e) ∧
      ∀ p ∈ pre, (∃ e2, attemptError p.1 = some e2) ∧
        p.2 - 0 ≤ connectionTimeout :=
  waitForConnection_raise_characterization
    [(AttemptEnv.noConnect ⟨none, some "ECONNREFUSED"⟩, 31000)] 0 0 []
    (timeoutMessage "ECONNREFUSED") rfl

/-- Counterexample for C1: the claim that the loop never returns
normally after the deadline fails.  The first attempt fails 1000 ms in;
the second attempt only completes at 40000 ms, past the 30000 ms
deadline, yet its successful probe returns normally, because the
deadline is only ever checked after a failure. -/
theorem waitForConnection_success_after_deadline :
    (waitForConnection 0
        [(AttemptEnv.connected (QueryEnv.failure ⟨none, some "ECONNREFUSED"⟩), 1000),
         (AttemptEnv.connected (QueryEnv.rows [⟨"0001_init", 1⟩]), 40000)]).1 =
      some (Except.ok
        { isCreated := true, error := none,
          latestMigration := some "0001_init", connection := some 1 }) ∧
    40000 - 0 > connectionTimeout :=
  ⟨rfl, by decide⟩

/-- For C5: the loop body of `waitForConnection` (db.ts lines 80-97)
contains no `disconnectDb` call, so the connection opened by a failed
attempt is never released.  Concretely: the first attempt opens handle
0, its probe fails, the loop retries and succeeds with handle 1, and
the call returns with handle 0 still open — the failed attempt leaked
its connection, contradicting the claim that it is released before the
retry. -/
theorem waitForConnection_leaks_failed_connection :
    waitForConnection 0
        [(AttemptEnv.connected (QueryEnv.failure ⟨none, some "ECONNREFUSED"⟩), 1000),
         (AttemptEnv.connected (QueryEnv.rows [⟨"0001_init", 1⟩]), 2000)] =
      (some (Except.ok
        { isCreated := true, error := none,
          latestMigration := some "0001_init", connection := some 1 }), [0]) :=
  rfl
